import Mathlib

/-!
Verification of the sampling/decoding engine of the EE596 Lab 4 repository
(`advanced_text_generation.py`) against its specification.

Shallow embedding conventions:
* The trained RNN (`SequenceModel`) is opaque in the source; it is embedded as
  an abstract step function `model : Nat → Option σ → List ℚ × σ` (token id and
  optional recurrent state in, score vector and new state out).  `none` is the
  "fresh sequence" state (Python `hidden_state = None`).
* Raw scores are exact rationals standing in for the floating-point tensors.
* `torch.nn.functional.softmax` needs the exponential; the exponential map is
  abstracted as a parameter `e : ℚ → ℚ`, and `softmax` performs the
  normalisation `e x / Σ e x` over the vocabulary dimension exactly as the
  source does.
* `torch.distributions.Categorical(probs).sample()` is a draw from the ambient
  random source; it is embedded as an abstract `sample : Nat → List ℚ → Nat`
  giving, for each decoding-loop iteration index, the id drawn from the
  categorical distribution described by the probability vector it receives.
* `num_to_character` is a Python dict; per the spec (§3) the vocabulary map is
  total over ids, so it is embedded as a total function `Nat → Char`.
* The Python `length` argument is an `int` iterated via `range(length)`, so it
  is embedded as `Int` with `Int.toNat` giving the iteration count.
* Console side effects are reified: the warning prints for unmapped seed
  characters and the empty-seed error print become fields of `GenResult`.
-/

/-- Result of one call to `generate_text_with_seed`: the returned string,
the seed characters that were warned about as absent from the vocabulary
(`Warning: Character ... not found`), and whether the empty-seed error
(`Error: No valid characters in seed phrase!`) was reported. -/
structure GenResult where
  text : String
  warnings : List Char
  error : Bool
deriving DecidableEq, Repr

/-- `softmax` over the vocabulary dimension with abstract exponential `e`:
`torch.nn.functional.softmax(x, dim=0)`, i.e. each entry becomes
`e x / Σ e x`. -/
def softmax (e : ℚ → ℚ) (xs : List ℚ) : List ℚ :=
  let es := xs.map e
  es.map (fun v => v / es.sum)

/-- The warm-up loop of `generate_text_with_seed` (lines 53-55): fold the
model over a list of seed tokens, starting from a given recurrent state and
discarding the score output of every step. -/
def warmup {σ : Type} (model : Nat → Option σ → List ℚ × σ) :
    List Nat → Option σ → Option σ
  | [], h => h
  | t :: ts, h => warmup model ts (some (model t h).2)

/-- The decoding loop of `generate_text_with_seed` (lines 60-79):
`n` iterations remain, `i` is the absolute iteration index (feeding the
random source), `cur` is the current input token, `h` the recurrent state.
Each iteration steps the model, divides the scores element-wise by the
temperature, applies `softmax`, samples one token id from the resulting
categorical distribution, decodes it to a character, and feeds the sampled
id back as the next input. -/
def decodeLoop {σ : Type} (model : Nat → Option σ → List ℚ × σ)
    (num_to_character : Nat → Char) (sample : Nat → List ℚ → Nat)
    (e : ℚ → ℚ) (temperature : ℚ) :
    Nat → Nat → Nat → Option σ → List Char
  | 0, _, _, _ => []
  | n + 1, i, cur, h =>
    let st := model cur h
    let adjusted := st.1.map (fun v => v / temperature)
    let probs := softmax e adjusted
    let character_num := sample i probs
    num_to_character character_num ::
      decodeLoop model num_to_character sample e temperature n (i + 1)
        character_num (some st.2)

/-- Embedding of `generate_text_with_seed` (lines 11-82).  The seed is
tokenised by skipping characters absent from `character_to_num` (recording a
warning for each), the call aborts with the empty-seed error when no
character mapped, otherwise the model is warmed up on every seed token but
the last, and `length` characters are generated by the decoding loop seeded
with the last seed token. -/
def generate_text_with_seed {σ : Type} (model : Nat → Option σ → List ℚ × σ)
    (character_to_num : Char → Option Nat) (num_to_character : Nat → Char)
    (sample : Nat → List ℚ → Nat) (e : ℚ → ℚ)
    (seed_phrase : String) (length : Int) (temperature : ℚ) : GenResult :=
  let seed_indices := seed_phrase.toList.filterMap character_to_num
  let warnings := seed_phrase.toList.filter (fun c => (character_to_num c).isNone)
  if hne : seed_indices = [] then
    { text := "", warnings := warnings, error := true }
  else
    let hidden_state := warmup model seed_indices.dropLast none
    let current_input := seed_indices.getLast hne
    let generated := decodeLoop model num_to_character sample e temperature
      length.toNat 0 current_input hidden_state
    { text := seed_phrase ++ String.mk generated, warnings := warnings,
      error := false }

/-!
Interactive session (`interactive_generation`, lines 139-159).

The console is embedded as an input stream `inputs : Nat → String` together
with a cursor `pos`; each `input()` call consumes the next stream element.
The `while True` loop is given explicit fuel (number of remaining
iterations the run is observed for).  The engine is abstracted as
`engine : String → Int → ℚ → GenResult` (it stands for
`generate_text_with_seed` with the model, vocabulary maps and the ambient
random source fixed); each invocation of the engine is recorded as a
`SessionEvent` carrying the arguments passed and the result obtained.
-/

/-- One engine invocation made by the interactive session: the seed, the
length and temperature the engine was called with, whether the defaults were
substituted via the `except ValueError` branch, and the engine result. -/
inductive SessionEvent where
  | generated (seed : String) (length : Int) (temperature : ℚ)
      (usedDefaults : Bool) (result : GenResult)
deriving DecidableEq, Repr

/-- The seed of a session event. -/
def SessionEvent.seed : SessionEvent → String
  | .generated s _ _ _ _ => s

/-- Value of a digit string, most significant first. -/
def digitsToNat (ds : List Char) : Nat :=
  ds.foldl (fun a c => a * 10 + (c.toNat - Char.toNat (Char.ofNat 48))) 0

/-- Parse of the decimal literals accepted for the temperature prompt,
as exact rationals: optional sign, then digits with an optional fractional
part (`float(...)` restricted to plain decimal notation; exotic float
spellings such as exponents are out of scope — the claims only depend on
which inputs fail to parse and on the value of `"0.8"`). -/
def parseDecimal (s : String) : Option ℚ :=
  let cs := s.toList
  let signBody : ℚ × List Char :=
    match cs with
    | '-' :: rest => (-1, rest)
    | '+' :: rest => (1, rest)
    | _ => (1, cs)
  let sign := signBody.1
  let body := signBody.2
  let intPart := body.takeWhile Char.isDigit
  let rest := body.dropWhile Char.isDigit
  match rest with
  | [] =>
    if intPart.isEmpty then none else some (sign * (digitsToNat intPart : ℚ))
  | '.' :: frac =>
    if frac.all Char.isDigit && !(intPart.isEmpty && frac.isEmpty) then
      some (sign * ((digitsToNat intPart : ℚ) +
        (digitsToNat frac : ℚ) / ((10 : ℚ) ^ frac.length)))
    else none
  | _ => none

/-- Python `str.strip()`: remove leading and trailing whitespace. -/
def pyStrip (s : String) : String :=
  String.mk (((s.toList.dropWhile Char.isWhitespace).reverse.dropWhile
    Char.isWhitespace).reverse)

/-- Python `str.lower()` (over the character range the repository uses). -/
def pyLower (s : String) : String := String.mk (s.toList.map Char.toLower)

/-- Python `int(...)` applied to a string: surrounding whitespace allowed,
optional sign, then one or more digits (underscore grouping and other exotic
accepted spellings are out of scope — the claims depend only on which inputs
fail to parse). -/
def parseIntStr (s : String) : Option Int :=
  let cs := ((s.toList.dropWhile Char.isWhitespace).reverse.dropWhile
    Char.isWhitespace).reverse
  let signBody : Int × List Char :=
    match cs with
    | '-' :: rest => (-1, rest)
    | '+' :: rest => (1, rest)
    | _ => (1, cs)
  if signBody.2 ≠ [] ∧ signBody.2.all Char.isDigit then
    some (signBody.1 * (digitsToNat signBody.2 : Int))
  else none

/-- Line 152: `int(input("Enter length (default 150): ") or "150")` — an
empty input line is replaced by the string `"150"` before parsing; a parse
failure raises `ValueError` (here: `none`). -/
def parseLenInput (s : String) : Option Int :=
  parseIntStr (if s = "" then "150" else s)

/-- Line 153: `float(input("Enter temperature (default 0.8): ") or "0.8")`
with the same empty-line default substitution. -/
def parseTempInput (s : String) : Option ℚ :=
  parseDecimal (if s = "" then "0.8" else s)

/-- Embedding of the `interactive_generation` loop (lines 145-159), run for
`fuel` iterations over the input stream starting at `pos`, returning the
list of engine invocations in order.  Per iteration: read and strip a seed;
`'quit'` (case-insensitively) terminates the session; an empty seed is
skipped without reading further inputs; otherwise the length and temperature
prompts are read — if the length fails to parse, the temperature prompt is
never read (the exception aborts line 152) and the engine is invoked with
the defaults `150` and `0.8`; if the length parses but the temperature does
not, the engine is likewise invoked with both defaults; otherwise the parsed
values are used. -/
def interactive_generation (engine : String → Int → ℚ → GenResult) :
    Nat → (Nat → String) → Nat → List SessionEvent
  | 0, _, _ => []
  | fuel + 1, inputs, pos =>
    let seed := pyStrip (inputs pos)
    if pyLower seed = "quit" then []
    else if seed = "" then
      interactive_generation engine fuel inputs (pos + 1)
    else
      match parseLenInput (inputs (pos + 1)) with
      | none =>
        .generated seed 150 (4/5) true (engine seed 150 (4/5)) ::
          interactive_generation engine fuel inputs (pos + 2)
      | some len =>
        match parseTempInput (inputs (pos + 2)) with
        | none =>
          .generated seed 150 (4/5) true (engine seed 150 (4/5)) ::
            interactive_generation engine fuel inputs (pos + 3)
        | some temp =>
          .generated seed len temp false (engine seed len temp) ::
            interactive_generation engine fuel inputs (pos + 3)

/-!
Quality analysis (`analyze_generation_quality`, lines 161-193).

The engine is abstracted as `engine : String → Int → ℚ → Nat → GenResult`:
the extra `Nat` is the sample index, reflecting that successive calls with
identical arguments consume fresh draws from the ambient random source.
-/

/-- Line 166: the fixed phrase list of the quality-analysis driver. -/
def test_phrases : List String :=
  ["My dear Watson", "The case was", "Holmes observed", "I have deduced",
   "Elementary"]

/-- Line 185: the fixed stop-word list. -/
def common_words : List String :=
  ["the", "and", "of", "to", "a", "in", "is", "it", "you", "that"]

/-- Python `s.count(w)` for a non-empty pattern `w`: the number of
non-overlapping occurrences of `w` in `s`, scanning left to right.
(For `w = []` the source never asks; this embedding returns `0` there.) -/
def countSub (w : List Char) : List Char → Nat
  | [] => 0
  | c :: rest =>
    if w ≠ [] ∧ w.isPrefixOf (c :: rest) then
      1 + countSub w (List.drop (w.length - 1) rest)
    else
      countSub w rest
termination_by s => s.length
decreasing_by
  · simp only [List.length_drop, List.length_cons]
    omega
  · simp only [List.length_cons]
    omega

/-- The per-phrase analysis record produced by `analyze_generation_quality`:
the sample texts, the reported average length, the stop-word counts in
`common_words` order, and the same counts as reported (sorted by count,
descending, ties keeping list order as Python's stable `sorted` does). -/
structure PhraseReport where
  samples : List String
  avgLength : ℚ
  wordCounts : List (String × Nat)
  sortedCounts : List (String × Nat)
deriving DecidableEq, Repr

/-- Lines 172-193 for one phrase: draw `num_samples` generations with
`length=100, temperature=0.8`, average the text lengths, and count each
stop word in the lower-cased samples, accumulated across all samples. -/
def analyze_phrase (engine : String → Int → ℚ → Nat → GenResult)
    (num_samples : Nat) (phrase : String) : PhraseReport :=
  let samples := (List.range num_samples).map
    (fun i => (engine phrase 100 (4/5) i).text)
  let avg_length := (samples.map (fun s => (s.length : ℚ))).sum /
    (samples.length : ℚ)
  let word_counts := common_words.map
    (fun w => (w, (samples.map
      (fun s => countSub w.toList (pyLower s).toList)).sum))
  { samples := samples
    avgLength := avg_length
    wordCounts := word_counts
    sortedCounts := List.mergeSort word_counts (fun a b => b.2 ≤ a.2) }

/-- Embedding of `analyze_generation_quality` (lines 161-193): one
`PhraseReport` per phrase of the fixed phrase list, in order. -/
def analyze_generation_quality (engine : String → Int → ℚ → Nat → GenResult)
    (num_samples : Nat) : List (String × PhraseReport) :=
  test_phrases.map (fun p => (p, analyze_phrase engine num_samples p))

/-!
Spec-side description of the decoding loop (spec §4.1 step 4), used to state
the refinement claims: a recurrence on (current token, recurrent state)
pairs, one application per decoding iteration.
-/

/-- One decoding step as the spec words it (§4.1 4a-4e): step the model,
divide the scores element-wise by the temperature, convert to probabilities
by softmax, draw one token id from that categorical distribution; the drawn
id becomes the next input token and the stepped state is carried forward. -/
def specDecodeStep {σ : Type} (model : Nat → Option σ → List ℚ × σ)
    (sample : Nat → List ℚ → Nat) (e : ℚ → ℚ) (temperature : ℚ)
    (i : Nat) (p : Nat × Option σ) : Nat × Option σ :=
  let scores := (model p.1 p.2).1
  let adjusted := scores.map (fun v => v / temperature)
  let probs := softmax e adjusted
  (sample i probs, some (model p.1 p.2).2)

/-- The (token, state) pair after `k` spec decoding steps, starting from the
pair `start` with the random source consumed from index `i0` on. -/
def specTrace {σ : Type} (model : Nat → Option σ → List ℚ × σ)
    (sample : Nat → List ℚ → Nat) (e : ℚ → ℚ) (temperature : ℚ)
    (i0 : Nat) (start : Nat × Option σ) : Nat → Nat × Option σ
  | 0 => start
  | k + 1 =>
    specDecodeStep model sample e temperature (i0 + k)
      (specTrace model sample e temperature i0 start k)

/-- Wrapper instrumenting a model with a step counter carried in the
recurrent state: each step increments the count (a fresh `none` state counts
as zero prior steps).  Used to state "the warm-up steps the model exactly
n-1 times". -/
def countingModel {σ : Type} (model : Nat → Option σ → List ℚ × σ) :
    Nat → Option (σ × Nat) → List ℚ × (σ × Nat)
  | t, h =>
    let base := model t (h.map Prod.fst)
    (base.1, (base.2, (match h with | none => 0 | some p => p.2) + 1))

/-- Number of model steps recorded in an instrumented recurrent state. -/
def stepCount {σ : Type} : Option (σ × Nat) → Nat
  | none => 0
  | some p => p.2

/-!
A concrete two-character instance (vocabulary `{a ↦ 0, b ↦ 1}`, a model with
constant scores, two constant random sources) used to evaluate the engine at
concrete inputs.
-/

/-- Toy model: constant score vector over a two-id vocabulary, unit state. -/
def toyModel : Nat → Option Unit → List ℚ × Unit := fun _ _ => ([1, 1], ())

/-- Toy vocabulary, characters to ids. -/
def toyCharToNum : Char → Option Nat :=
  fun c => if c = 'a' then some 0 else if c = 'b' then some 1 else none

/-- Toy vocabulary, ids to characters. -/
def toyNumToChar : Nat → Char := fun n => if n = 0 then 'a' else 'b'

/-- Stand-in exponential for concrete evaluation. -/
def toyExp : ℚ → ℚ := fun _ => 1

/-- A random source that always draws id 0. -/
def sampleZero : Nat → List ℚ → Nat := fun _ _ => 0

/-- A random source that always draws id 1. -/
def sampleOne : Nat → List ℚ → Nat := fun _ _ => 1

/-- A concrete engine instance (the toy model under the constant random
source), used to exercise the session and the quality analysis. -/
def toyEngine : String → Int → ℚ → GenResult := fun s l t =>
  generate_text_with_seed toyModel toyCharToNum toyNumToChar sampleZero
    toyExp s l t

/-- The concrete engine with a (here unused) sample index, as consumed by
the quality analysis. -/
def toyEngineIdx : String → Int → ℚ → Nat → GenResult := fun s l t _ =>
  toyEngine s l t

/-- Input stream: seed `"ab"`, then the malformed length input `"abc"`. -/
def inputsLenFail : Nat → String := fun n => if n = 0 then "ab" else "abc"

/-- Input stream: an empty seed line, then the quit sentinel. -/
def inputsEmptySeed : Nat → String := fun n => if n = 0 then "" else "quit"

/-- Shifting the starting point of the spec trace by one step. -/
theorem specTrace_shift {σ : Type} (model : Nat → Option σ → List ℚ × σ)
    (sample : Nat → List ℚ → Nat) (e : ℚ → ℚ) (T : ℚ)
    (i0 : Nat) (start : Nat × Option σ) (k : Nat) :
    specTrace model sample e T i0 start (k + 1) =
      specTrace model sample e T (i0 + 1)
        (specDecodeStep model sample e T i0 start) k := by
  induction k with
  | zero => simp [specTrace]
  | succ k ih =>
    have h1 : specTrace model sample e T i0 start (k + 1 + 1) =
        specDecodeStep model sample e T (i0 + (k + 1))
          (specTrace model sample e T i0 start (k + 1)) := rfl
    have h2 : specTrace model sample e T (i0 + 1)
          (specDecodeStep model sample e T i0 start) (k + 1) =
        specDecodeStep model sample e T ((i0 + 1) + k)
          (specTrace model sample e T (i0 + 1)
            (specDecodeStep model sample e T i0 start) k) := rfl
    rw [h1, h2, ih]
    congr 1
    omega

/-- Refinement of the source decoding loop by the spec recurrence: the `j`-th
generated character is the decoding of the token the spec trace reaches after
`j + 1` steps from the given start pair. -/
theorem decodeLoop_eq_specTrace {σ : Type} (model : Nat → Option σ → List ℚ × σ)
    (nc : Nat → Char) (sample : Nat → List ℚ → Nat) (e : ℚ → ℚ) (T : ℚ) :
    ∀ (n i cur : Nat) (h : Option σ),
      decodeLoop model nc sample e T n i cur h =
        (List.range n).map
          (fun j => nc ((specTrace model sample e T i (cur, h) (j + 1)).1))
  | 0, i, cur, h => by simp [decodeLoop]
  | n + 1, i, cur, h => by
    rw [decodeLoop,
      decodeLoop_eq_specTrace model nc sample e T n (i + 1) _ _,
      List.range_succ_eq_map, List.map_cons, List.map_map]
    have hhead :
        nc (sample i (softmax e ((model cur h).1.map (fun v => v / T)))) =
          nc ((specTrace model sample e T i (cur, h) (0 + 1)).1) := by
      simp [specTrace, specDecodeStep]
    rw [hhead]
    refine congrArg _ ?_
    refine List.map_congr_left ?_
    intro j hj
    show nc ((specTrace model sample e T (i + 1)
        (sample i (softmax e ((model cur h).1.map (fun v => v / T))),
          some (model cur h).2) (j + 1)).1) =
      nc ((specTrace model sample e T i (cur, h) (j + 1 + 1)).1)
    rw [specTrace_shift model sample e T i (cur, h) (j + 1)]
    rfl

/-- The instrumented warm-up performs one model step per seed token. -/
theorem warmup_stepCount {σ : Type} (model : Nat → Option σ → List ℚ × σ) :
    ∀ (ts : List Nat) (h : Option (σ × Nat)),
      stepCount (warmup (countingModel model) ts h) = stepCount h + ts.length
  | [], h => by simp [warmup]
  | t :: ts, h => by
    rw [warmup, warmup_stepCount model ts]
    cases h <;> simp [countingModel, stepCount] <;> omega

/-- Generic continuation shape of one session iteration with a non-empty,
non-quit seed: exactly one engine invocation is recorded and the loop
proceeds with its next prompt, whatever the engine returned. -/
theorem session_continues (engine : String → Int → ℚ → GenResult)
    (fuel : Nat) (inputs : Nat → String) (pos : Nat)
    (hq : pyLower (pyStrip (inputs pos)) ≠ "quit")
    (hs : pyStrip (inputs pos) ≠ "") :
    ∃ ev pos2,
      interactive_generation engine (fuel + 1) inputs pos =
        ev :: interactive_generation engine fuel inputs pos2 := by
  rw [interactive_generation]
  rw [if_neg hq, if_neg hs]
  cases hlen : parseLenInput (inputs (pos + 1)) with
  | none => exact ⟨_, pos + 2, rfl⟩
  | some len =>
    cases htemp : parseTempInput (inputs (pos + 2)) with
    | none => exact ⟨_, pos + 3, rfl⟩
    | some temp => exact ⟨_, pos + 3, rfl⟩

/-- The decoding loop emits exactly one character per iteration. -/
theorem decodeLoop_length {σ : Type} (model : Nat → Option σ → List ℚ × σ)
    (nc : Nat → Char) (sample : Nat → List ℚ → Nat) (e : ℚ → ℚ) (T : ℚ)
    (n i cur : Nat) (h : Option σ) :
    (decodeLoop model nc sample e T n i cur h).length = n := by
  rw [decodeLoop_eq_specTrace]
  simp

/-- C1: a request whose seed, after filtering out characters absent from the
vocabulary, yields zero valid token ids makes `generate_text_with_seed` fail
with the empty-seed error: it returns the empty text, reports the explicit
error, and produces no generated text; and the interactive session, having
recorded the engine invocation for such a seed, continues with its next
prompt regardless of the result. -/
theorem C1_empty_seed_error {σ : Type} (model : Nat → Option σ → List ℚ × σ)
    (character_to_num : Char → Option Nat) (num_to_character : Nat → Char)
    (sample : Nat → List ℚ → Nat) (e : ℚ → ℚ)
    (seed_phrase : String) (length : Int) (temperature : ℚ)
    (hempty : seed_phrase.toList.filterMap character_to_num = []) :
    (generate_text_with_seed model character_to_num num_to_character sample e
        seed_phrase length temperature =
      { text := "",
        warnings := seed_phrase.toList.filter
          (fun c => (character_to_num c).isNone),
        error := true }) ∧
    (∀ (engine : String → Int → ℚ → GenResult) (fuel : Nat)
        (inputs : Nat → String) (pos : Nat),
      pyStrip (inputs pos) = seed_phrase → pyLower seed_phrase ≠ "quit" →
      seed_phrase ≠ "" →
      ∃ ev pos2, interactive_generation engine (fuel + 1) inputs pos =
        ev :: interactive_generation engine fuel inputs pos2) := by
  constructor
  · simp only [generate_text_with_seed]
    rw [dif_pos hempty]
  · intro engine fuel inputs pos htrim hq hne
    exact session_continues engine fuel inputs pos
      (by rw [htrim]; exact hq) (by rw [htrim]; exact hne)

/-- C1 witness: the all-unmapped seed `"xy"` over the toy vocabulary. -/
theorem C1_empty_seed_error_witness :
    generate_text_with_seed toyModel toyCharToNum toyNumToChar sampleZero
        toyExp "xy" 2 1 =
      { text := "", warnings := ['x', 'y'], error := true } := by
  have h := (C1_empty_seed_error toyModel toyCharToNum toyNumToChar sampleZero
    toyExp "xy" 2 1 (by decide)).1
  simpa using h

/-- C2: whenever at least one seed character maps to a vocabulary id, the
returned text starts with exactly the original seed string, character for
character, even when some seed characters were skipped during
tokenization. -/
theorem C2_seed_prefix {σ : Type} (model : Nat → Option σ → List ℚ × σ)
    (character_to_num : Char → Option Nat) (num_to_character : Nat → Char)
    (sample : Nat → List ℚ → Nat) (e : ℚ → ℚ)
    (seed_phrase : String) (length : Int) (temperature : ℚ)
    (hne : seed_phrase.toList.filterMap character_to_num ≠ []) :
    ∃ rest, (generate_text_with_seed model character_to_num num_to_character
      sample e seed_phrase length temperature).text = seed_phrase ++ rest := by
  refine ⟨String.mk (decodeLoop model num_to_character sample e temperature
    length.toNat 0
    ((seed_phrase.toList.filterMap character_to_num).getLast hne)
    (warmup model (seed_phrase.toList.filterMap character_to_num).dropLast
      none)), ?_⟩
  simp only [generate_text_with_seed]
  rw [dif_neg hne]

/-- C2 witness: seed `"xay"` on the toy vocabulary, where `x` and `y` are
skipped but the text still starts with the full original seed. -/
theorem C2_seed_prefix_witness :
    ∃ rest,
      (generate_text_with_seed toyModel toyCharToNum toyNumToChar sampleZero
        toyExp "xay" 2 1).text = "xay" ++ rest :=
  C2_seed_prefix toyModel toyCharToNum toyNumToChar sampleZero toyExp
    "xay" 2 1 (by decide)

/-- C3: for every valid request (at least one known seed character, positive
temperature, non-negative length) the result is exactly `request.length`
characters longer than the seed — one character per decoding-loop
iteration — and with length `0` the result equals the seed unchanged. -/
theorem C3_exact_length {σ : Type} (model : Nat → Option σ → List ℚ × σ)
    (character_to_num : Char → Option Nat) (num_to_character : Nat → Char)
    (sample : Nat → List ℚ → Nat) (e : ℚ → ℚ)
    (seed_phrase : String) (length : Int) (temperature : ℚ)
    (hne : seed_phrase.toList.filterMap character_to_num ≠ [])
    (_htemp : 0 < temperature) (hlen : 0 ≤ length) :
    (((generate_text_with_seed model character_to_num num_to_character sample
        e seed_phrase length temperature).text.length : Int) -
      (seed_phrase.length : Int) = length) ∧
    (length = 0 →
      (generate_text_with_seed model character_to_num num_to_character sample
        e seed_phrase length temperature).text = seed_phrase) := by
  have htext : (generate_text_with_seed model character_to_num
      num_to_character sample e seed_phrase length temperature).text =
      seed_phrase ++ String.mk (decodeLoop model num_to_character sample e
        temperature length.toNat 0
        ((seed_phrase.toList.filterMap character_to_num).getLast hne)
        (warmup model (seed_phrase.toList.filterMap character_to_num).dropLast
          none)) := by
    simp only [generate_text_with_seed]
    rw [dif_neg hne]
  constructor
  · rw [htext]
    simp only [String.length_append, String.length_mk, decodeLoop_length]
    push_cast
    rw [Int.toNat_of_nonneg hlen]
    ring
  · intro h0
    rw [htext, h0]
    have hz : ((0 : Int)).toNat = 0 := rfl
    rw [hz]
    have hd : decodeLoop model num_to_character sample e temperature 0 0
        ((seed_phrase.toList.filterMap character_to_num).getLast hne)
        (warmup model (seed_phrase.toList.filterMap character_to_num).dropLast
          none) = [] := rfl
    rw [hd]
    exact String.append_empty seed_phrase

/-- C3 witness: seed `"ab"`, length `2` on the toy instance gives a text of
length 4, and length `0` returns the seed unchanged. -/
theorem C3_exact_length_witness :
    (((generate_text_with_seed toyModel toyCharToNum toyNumToChar sampleZero
        toyExp "ab" 0 1).text.length : Int) - (("ab" : String).length : Int)
      = 0) ∧
    ((0 : Int) = 0 →
      (generate_text_with_seed toyModel toyCharToNum toyNumToChar sampleZero
        toyExp "ab" 0 1).text = "ab") :=
  C3_exact_length toyModel toyCharToNum toyNumToChar sampleZero toyExp
    "ab" 0 1 (by decide) (by norm_num) (by norm_num)

/-- C4: for a seed tokenizing to `n ≥ 1` ids, the warm-up starts from the
null recurrent state and steps the model exactly `n - 1` times (shown by
running the same warm-up under the step-counting instrumentation, and by
the warmed-up token list having length `n - 1`), discarding the scores; the
last seed token together with the warmed-up state then seeds the decoding
loop, so the first decoding step feeds the last seed token to the model. -/
theorem C4_warmup {σ : Type} (model : Nat → Option σ → List ℚ × σ)
    (character_to_num : Char → Option Nat) (num_to_character : Nat → Char)
    (sample : Nat → List ℚ → Nat) (e : ℚ → ℚ)
    (seed_phrase : String) (length : Int) (temperature : ℚ)
    (hne : seed_phrase.toList.filterMap character_to_num ≠ []) :
    (stepCount (warmup (countingModel model)
        (seed_phrase.toList.filterMap character_to_num).dropLast none) =
      (seed_phrase.toList.filterMap character_to_num).length - 1) ∧
    ((seed_phrase.toList.filterMap character_to_num).dropLast.length =
      (seed_phrase.toList.filterMap character_to_num).length - 1) ∧
    (1 ≤ length →
      ∃ cs, (generate_text_with_seed model character_to_num num_to_character
          sample e seed_phrase length temperature).text =
        seed_phrase ++ String.mk
          (num_to_character (sample 0 (softmax e
            ((model ((seed_phrase.toList.filterMap character_to_num).getLast
                hne)
              (warmup model
                (seed_phrase.toList.filterMap character_to_num).dropLast
                none)).1.map (fun v => v / temperature)))) :: cs)) := by
  refine ⟨?_, List.length_dropLast _, ?_⟩
  · rw [warmup_stepCount]
    simp [stepCount, List.length_dropLast]
  · intro hlen
    obtain ⟨m, hm⟩ : ∃ m, length.toNat = m + 1 := by
      refine ⟨length.toNat - 1, ?_⟩
      omega
    refine ⟨decodeLoop model num_to_character sample e temperature m 1
      (sample 0 (softmax e
        ((model ((seed_phrase.toList.filterMap character_to_num).getLast hne)
          (warmup model
            (seed_phrase.toList.filterMap character_to_num).dropLast
            none)).1.map (fun v => v / temperature))))
      (some (model
        ((seed_phrase.toList.filterMap character_to_num).getLast hne)
        (warmup model
          (seed_phrase.toList.filterMap character_to_num).dropLast
          none)).2), ?_⟩
    have htext : (generate_text_with_seed model character_to_num
        num_to_character sample e seed_phrase length temperature).text =
        seed_phrase ++ String.mk (decodeLoop model num_to_character sample e
          temperature length.toNat 0
          ((seed_phrase.toList.filterMap character_to_num).getLast hne)
          (warmup model
            (seed_phrase.toList.filterMap character_to_num).dropLast
            none)) := by
      simp only [generate_text_with_seed]
      rw [dif_neg hne]
    rw [htext, hm]
    rfl

/-- C4 witness: seed `"ab"` (two tokens) on the toy instance — the warm-up
performs exactly one instrumented step and the first decoding step consumes
the last seed token. -/
theorem C4_warmup_witness :
    (stepCount (warmup (countingModel toyModel)
        (("ab" : String).toList.filterMap toyCharToNum).dropLast none) =
      (("ab" : String).toList.filterMap toyCharToNum).length - 1) ∧
    ((("ab" : String).toList.filterMap toyCharToNum).dropLast.length =
      (("ab" : String).toList.filterMap toyCharToNum).length - 1) ∧
    ((1 : Int) ≤ 2 →
      ∃ cs, (generate_text_with_seed toyModel toyCharToNum toyNumToChar
          sampleZero toyExp "ab" 2 1).text =
        "ab" ++ String.mk
          (toyNumToChar (sampleZero 0 (softmax toyExp
            ((toyModel ((("ab" : String).toList.filterMap
                toyCharToNum).getLast (by decide))
              (warmup toyModel (("ab" : String).toList.filterMap
                toyCharToNum).dropLast none)).1.map
              (fun v => v / 1)))) :: cs)) :=
  C4_warmup toyModel toyCharToNum toyNumToChar sampleZero toyExp
    "ab" 2 1 (by decide)

/-- C5: in every decoding-loop iteration the raw scores returned by the
model step are divided element-wise by the temperature, turned into a
probability distribution by softmax over the vocabulary dimension, one token
id is drawn from that categorical distribution by the random source, and the
sampled id is decoded to a character, appended to the generated text, and
fed back as the next input token — so the whole generated continuation is
described by the spec recurrence `specTrace`. -/
theorem C5_sampling_pipeline {σ : Type} (model : Nat → Option σ → List ℚ × σ)
    (character_to_num : Char → Option Nat) (num_to_character : Nat → Char)
    (sample : Nat → List ℚ → Nat) (e : ℚ → ℚ)
    (seed_phrase : String) (length : Int) (temperature : ℚ)
    (hne : seed_phrase.toList.filterMap character_to_num ≠ []) :
    (∀ (n i cur : Nat) (h : Option σ),
      decodeLoop model num_to_character sample e temperature (n + 1) i cur h =
        num_to_character (sample i (softmax e
            ((model cur h).1.map (fun v => v / temperature)))) ::
          decodeLoop model num_to_character sample e temperature n (i + 1)
            (sample i (softmax e
              ((model cur h).1.map (fun v => v / temperature))))
            (some (model cur h).2)) ∧
    ((generate_text_with_seed model character_to_num num_to_character sample
        e seed_phrase length temperature).text =
      seed_phrase ++ String.mk ((List.range length.toNat).map (fun j =>
        num_to_character ((specTrace model sample e temperature 0
          ((seed_phrase.toList.filterMap character_to_num).getLast hne,
            warmup model
              (seed_phrase.toList.filterMap character_to_num).dropLast none)
          (j + 1)).1)))) := by
  refine ⟨fun n i cur h => rfl, ?_⟩
  have htext : (generate_text_with_seed model character_to_num
      num_to_character sample e seed_phrase length temperature).text =
      seed_phrase ++ String.mk (decodeLoop model num_to_character sample e
        temperature length.toNat 0
        ((seed_phrase.toList.filterMap character_to_num).getLast hne)
        (warmup model (seed_phrase.toList.filterMap character_to_num).dropLast
          none)) := by
    simp only [generate_text_with_seed]
    rw [dif_neg hne]
  rw [htext, decodeLoop_eq_specTrace]

/-- C5 witness: the pipeline characterisation evaluated on the toy instance
with seed `"ab"` and one decoding step. -/
theorem C5_sampling_pipeline_witness :
    (∀ (n i cur : Nat) (h : Option Unit),
      decodeLoop toyModel toyNumToChar sampleZero toyExp 1 (n + 1) i cur h =
        toyNumToChar (sampleZero i (softmax toyExp
            ((toyModel cur h).1.map (fun v => v / 1)))) ::
          decodeLoop toyModel toyNumToChar sampleZero toyExp 1 n (i + 1)
            (sampleZero i (softmax toyExp
              ((toyModel cur h).1.map (fun v => v / 1))))
            (some (toyModel cur h).2)) ∧
    ((generate_text_with_seed toyModel toyCharToNum toyNumToChar sampleZero
        toyExp "ab" 1 1).text =
      "ab" ++ String.mk ((List.range ((1 : Int)).toNat).map (fun j =>
        toyNumToChar ((specTrace toyModel sampleZero toyExp 1 0
          ((("ab" : String).toList.filterMap toyCharToNum).getLast
              (by decide),
            warmup toyModel
              (("ab" : String).toList.filterMap toyCharToNum).dropLast none)
          (j + 1)).1)))) :=
  C5_sampling_pipeline toyModel toyCharToNum toyNumToChar sampleZero toyExp
    "ab" 1 1 (by decide)

/-- C6: the engine has no guard on the temperature — with `temperature ≤ 0`
a request with a valid seed still runs to completion without error, and the
scores of the first decoding step are still divided element-wise by that
non-positive temperature (the division is unconditional; only the
caller-side precondition `temperature > 0` keeps the singularity
unreachable).  In this exact-rational embedding `x / 0 = 0`, so the
float-level singularity itself is out of scope; what is verified is that the
division by the non-positive temperature is reached, unguarded. -/
theorem C6_no_temperature_guard {σ : Type}
    (model : Nat → Option σ → List ℚ × σ)
    (character_to_num : Char → Option Nat) (num_to_character : Nat → Char)
    (sample : Nat → List ℚ → Nat) (e : ℚ → ℚ)
    (seed_phrase : String) (length : Int) (temperature : ℚ)
    (_hT : temperature ≤ 0)
    (hne : seed_phrase.toList.filterMap character_to_num ≠ [])
    (hlen : 1 ≤ length) :
    ((generate_text_with_seed model character_to_num num_to_character sample
        e seed_phrase length temperature).error = false) ∧
    (∃ cs, (generate_text_with_seed model character_to_num num_to_character
        sample e seed_phrase length temperature).text =
      seed_phrase ++ String.mk
        (num_to_character (sample 0 (softmax e
          ((model ((seed_phrase.toList.filterMap character_to_num).getLast
              hne)
            (warmup model
              (seed_phrase.toList.filterMap character_to_num).dropLast
              none)).1.map (fun v => v / temperature)))) :: cs)) := by
  constructor
  · simp only [generate_text_with_seed]
    rw [dif_neg hne]
  · obtain ⟨m, hm⟩ : ∃ m, length.toNat = m + 1 := ⟨length.toNat - 1, by omega⟩
    refine ⟨decodeLoop model num_to_character sample e temperature m 1
      (sample 0 (softmax e
        ((model ((seed_phrase.toList.filterMap character_to_num).getLast hne)
          (warmup model
            (seed_phrase.toList.filterMap character_to_num).dropLast
            none)).1.map (fun v => v / temperature))))
      (some (model
        ((seed_phrase.toList.filterMap character_to_num).getLast hne)
        (warmup model
          (seed_phrase.toList.filterMap character_to_num).dropLast
          none)).2), ?_⟩
    have htext : (generate_text_with_seed model character_to_num
        num_to_character sample e seed_phrase length temperature).text =
        seed_phrase ++ String.mk (decodeLoop model num_to_character sample e
          temperature length.toNat 0
          ((seed_phrase.toList.filterMap character_to_num).getLast hne)
          (warmup model
            (seed_phrase.toList.filterMap character_to_num).dropLast
            none)) := by
      simp only [generate_text_with_seed]
      rw [dif_neg hne]
    rw [htext, hm]
    rfl

/-- C6 witness: temperature `0` on the toy instance still generates. -/
theorem C6_no_temperature_guard_witness :
    ((generate_text_with_seed toyModel toyCharToNum toyNumToChar sampleZero
        toyExp "ab" 1 0).error = false) ∧
    (∃ cs, (generate_text_with_seed toyModel toyCharToNum toyNumToChar
        sampleZero toyExp "ab" 1 0).text =
      "ab" ++ String.mk
        (toyNumToChar (sampleZero 0 (softmax toyExp
          ((toyModel ((("ab" : String).toList.filterMap toyCharToNum).getLast
              (by decide))
            (warmup toyModel
              (("ab" : String).toList.filterMap toyCharToNum).dropLast
              none)).1.map (fun v => v / 0)))) :: cs)) :=
  C6_no_temperature_guard toyModel toyCharToNum toyNumToChar sampleZero
    toyExp "ab" 1 0 (by norm_num) (by decide) (by norm_num)

/-- C7: with a fixed random source, two calls of the engine on identical
model, vocabulary and request produce identical output; with different
random draws the outputs can differ — the engine is stochastic, not
deterministic by default (witnessed on the toy instance by two random
sources yielding different texts). -/
theorem C7_fixed_source_deterministic
    (sample₁ sample₂ : Nat → List ℚ → Nat) (hs : sample₁ = sample₂) :
    (∀ {σ : Type} (model : Nat → Option σ → List ℚ × σ)
      (character_to_num : Char → Option Nat) (num_to_character : Nat → Char)
      (e : ℚ → ℚ) (seed_phrase : String) (length : Int) (temperature : ℚ),
      generate_text_with_seed model character_to_num num_to_character sample₁
          e seed_phrase length temperature =
        generate_text_with_seed model character_to_num num_to_character
          sample₂ e seed_phrase length temperature) ∧
    generate_text_with_seed toyModel toyCharToNum toyNumToChar sampleZero
        toyExp "a" 1 1 ≠
      generate_text_with_seed toyModel toyCharToNum toyNumToChar sampleOne
        toyExp "a" 1 1 := by
  subst hs
  exact ⟨fun _ _ _ _ _ _ _ => rfl, by decide⟩

/-- C7 witness: instantiated at the constant random source `sampleZero`. -/
theorem C7_fixed_source_deterministic_witness :
    generate_text_with_seed toyModel toyCharToNum toyNumToChar sampleZero
        toyExp "a" 1 1 ≠
      generate_text_with_seed toyModel toyCharToNum toyNumToChar sampleOne
        toyExp "a" 1 1 :=
  (C7_fixed_source_deterministic sampleZero sampleZero rfl).2


/-- C8: in the interactive session, whenever the length input fails to parse
as an integer — or the length parses but the temperature input fails to
parse as a real — the defaults (length 150, temperature 0.8) are
substituted, the engine is still invoked for the entered seed, and the
session continues with its next prompt; in particular the malformed length
input `"abc"` fails to parse, so the engine is invoked with length 150. -/
theorem C8_default_substitution (engine : String → Int → ℚ → GenResult)
    (fuel : Nat) (inputs : Nat → String) (pos : Nat)
    (hq : pyLower (pyStrip (inputs pos)) ≠ "quit")
    (hs : pyStrip (inputs pos) ≠ "") :
    (parseLenInput (inputs (pos + 1)) = none →
      interactive_generation engine (fuel + 1) inputs pos =
        SessionEvent.generated (pyStrip (inputs pos)) 150 (4/5) true
            (engine (pyStrip (inputs pos)) 150 (4/5)) ::
          interactive_generation engine fuel inputs (pos + 2)) ∧
    (∀ len : Int, parseLenInput (inputs (pos + 1)) = some len →
      parseTempInput (inputs (pos + 2)) = none →
      interactive_generation engine (fuel + 1) inputs pos =
        SessionEvent.generated (pyStrip (inputs pos)) 150 (4/5) true
            (engine (pyStrip (inputs pos)) 150 (4/5)) ::
          interactive_generation engine fuel inputs (pos + 3)) ∧
    parseLenInput "abc" = none := by
  refine ⟨?_, ?_, by decide⟩
  · intro hlen
    rw [interactive_generation, if_neg hq, if_neg hs, hlen]
  · intro len hlen htemp
    rw [interactive_generation, if_neg hq, if_neg hs, hlen, htemp]

/-- C8 witness: seed `"ab"` followed by the malformed length `"abc"`. -/
theorem C8_default_substitution_witness :
    (parseLenInput (inputsLenFail (0 + 1)) = none →
      interactive_generation toyEngine (0 + 1) inputsLenFail 0 =
        SessionEvent.generated (pyStrip (inputsLenFail 0)) 150 (4/5) true
            (toyEngine (pyStrip (inputsLenFail 0)) 150 (4/5)) ::
          interactive_generation toyEngine 0 inputsLenFail (0 + 2)) ∧
    (∀ len : Int, parseLenInput (inputsLenFail (0 + 1)) = some len →
      parseTempInput (inputsLenFail (0 + 2)) = none →
      interactive_generation toyEngine (0 + 1) inputsLenFail 0 =
        SessionEvent.generated (pyStrip (inputsLenFail 0)) 150 (4/5) true
            (toyEngine (pyStrip (inputsLenFail 0)) 150 (4/5)) ::
          interactive_generation toyEngine 0 inputsLenFail (0 + 3)) ∧
    parseLenInput "abc" = none :=
  C8_default_substitution toyEngine 0 inputsLenFail 0 (by decide) (by decide)

/-- C10: the interactive session never invokes the engine with an empty
seed — an input empty after stripping (and necessarily not the exit
sentinel) is skipped without reading length or temperature and without any
engine invocation, the cursor advancing by exactly one line; and every
engine invocation the session ever records carries a non-empty seed. -/
theorem C10_empty_seed_skipped (engine : String → Int → ℚ → GenResult) :
    (∀ (fuel : Nat) (inputs : Nat → String) (pos : Nat),
      pyStrip (inputs pos) = "" →
      interactive_generation engine (fuel + 1) inputs pos =
        interactive_generation engine fuel inputs (pos + 1)) ∧
    (∀ (fuel : Nat) (inputs : Nat → String) (pos : Nat) (ev : SessionEvent),
      ev ∈ interactive_generation engine fuel inputs pos →
      ev.seed ≠ "") := by
  constructor
  · intro fuel inputs pos h
    rw [interactive_generation, h]
    rw [if_neg (by decide : ¬pyLower "" = "quit"), if_pos rfl]
  · intro fuel
    induction fuel with
    | zero =>
      intro inputs pos ev hev
      rw [interactive_generation] at hev
      exact absurd hev (List.not_mem_nil ev)
    | succ fuel ih =>
      intro inputs pos ev hev
      rw [interactive_generation] at hev
      by_cases hq : pyLower (pyStrip (inputs pos)) = "quit"
      · rw [if_pos hq] at hev
        exact absurd hev (List.not_mem_nil ev)
      · rw [if_neg hq] at hev
        by_cases hs : pyStrip (inputs pos) = ""
        · rw [if_pos hs] at hev
          exact ih inputs (pos + 1) ev hev
        · rw [if_neg hs] at hev
          cases hlen : parseLenInput (inputs (pos + 1)) with
          | none =>
            rw [hlen] at hev
            rcases List.mem_cons.mp hev with h | h
            · subst h
              exact hs
            · exact ih inputs (pos + 2) ev h
          | some len =>
            rw [hlen] at hev
            cases htemp : parseTempInput (inputs (pos + 2)) with
            | none =>
              rw [htemp] at hev
              rcases List.mem_cons.mp hev with h | h
              · subst h
                exact hs
              · exact ih inputs (pos + 3) ev h
            | some temp =>
              rw [htemp] at hev
              rcases List.mem_cons.mp hev with h | h
              · subst h
                exact hs
              · exact ih inputs (pos + 3) ev h

/-- C10 witness: an empty input line is skipped, advancing one position. -/
theorem C10_empty_seed_skipped_witness :
    interactive_generation toyEngine (0 + 1) inputsEmptySeed 0 =
      interactive_generation toyEngine 0 inputsEmptySeed (0 + 1) :=
  (C10_empty_seed_skipped toyEngine).1 0 inputsEmptySeed 0 (by decide)

/-- C9: the quality-analysis driver, for each phrase of its fixed phrase
list, draws `num_samples` generations at the fixed temperature 0.8 (and
fixed length 100), computes the mean output length over those samples, and
computes the frequency counts of the fixed stop-word list accumulated across
all samples, reporting them sorted in descending order by count (the
reported counts are a permutation of the per-word counts, pairwise
non-increasing). -/
theorem C9_quality_analysis (engine : String → Int → ℚ → Nat → GenResult)
    (num_samples : Nat) (_hpos : 0 < num_samples)
    (phrase : String) (hp : phrase ∈ test_phrases) :
    ((phrase, analyze_phrase engine num_samples phrase) ∈
      analyze_generation_quality engine num_samples) ∧
    ((analyze_phrase engine num_samples phrase).samples =
      (List.range num_samples).map
        (fun i => (engine phrase 100 (4/5) i).text)) ∧
    ((analyze_phrase engine num_samples phrase).samples.length =
      num_samples) ∧
    ((analyze_phrase engine num_samples phrase).avgLength =
      ((analyze_phrase engine num_samples phrase).samples.map
        (fun s => (s.length : ℚ))).sum / (num_samples : ℚ)) ∧
    ((analyze_phrase engine num_samples phrase).wordCounts =
      common_words.map (fun w => (w,
        ((analyze_phrase engine num_samples phrase).samples.map
          (fun s => countSub w.toList (pyLower s).toList)).sum))) ∧
    ((analyze_phrase engine num_samples phrase).sortedCounts.Perm
      (analyze_phrase engine num_samples phrase).wordCounts) ∧
    (List.Pairwise (fun a b => b.2 ≤ a.2)
      (analyze_phrase engine num_samples phrase).sortedCounts) := by
  have h3 : (analyze_phrase engine num_samples phrase).samples.length =
      num_samples := by
    simp [analyze_phrase]
  refine ⟨List.mem_map_of_mem _ hp, rfl, h3, ?_, rfl,
    List.mergeSort_perm _ _, ?_⟩
  · have h4 : (analyze_phrase engine num_samples phrase).avgLength =
        ((analyze_phrase engine num_samples phrase).samples.map
          (fun s => (s.length : ℚ))).sum /
        (((analyze_phrase engine num_samples phrase).samples.length : Nat) :
          ℚ) := rfl
    rw [h4, h3]
  · have hsorted : List.Pairwise
        (fun a b : String × Nat => (decide (b.2 ≤ a.2)) = true)
        (List.mergeSort
          ((analyze_phrase engine num_samples phrase).wordCounts)
          (fun a b => decide (b.2 ≤ a.2))) :=
      List.sorted_mergeSort
        (by
          intro a b c hab hbc
          simp only [decide_eq_true_eq] at *
          omega)
        (by
          intro a b
          simpa using Nat.le_total b.2 a.2)
        _
    refine List.Pairwise.imp ?_ hsorted
    intro a b h
    exact of_decide_eq_true h

/-- C9 witness: one sample of the phrase `"Elementary"` on the toy engine. -/
theorem C9_quality_analysis_witness :
    ((("Elementary" : String),
        analyze_phrase toyEngineIdx 1 "Elementary") ∈
      analyze_generation_quality toyEngineIdx 1) ∧
    ((analyze_phrase toyEngineIdx 1 "Elementary").samples =
      (List.range 1).map
        (fun i => (toyEngineIdx "Elementary" 100 (4/5) i).text)) ∧
    ((analyze_phrase toyEngineIdx 1 "Elementary").samples.length = 1) ∧
    ((analyze_phrase toyEngineIdx 1 "Elementary").avgLength =
      ((analyze_phrase toyEngineIdx 1 "Elementary").samples.map
        (fun s => (s.length : ℚ))).sum / ((1 : Nat) : ℚ)) ∧
    ((analyze_phrase toyEngineIdx 1 "Elementary").wordCounts =
      common_words.map (fun w => (w,
        ((analyze_phrase toyEngineIdx 1 "Elementary").samples.map
          (fun s => countSub w.toList (pyLower s).toList)).sum))) ∧
    ((analyze_phrase toyEngineIdx 1 "Elementary").sortedCounts.Perm
      (analyze_phrase toyEngineIdx 1 "Elementary").wordCounts) ∧
    (List.Pairwise (fun a b => b.2 ≤ a.2)
      (analyze_phrase toyEngineIdx 1 "Elementary").sortedCounts) :=
  C9_quality_analysis toyEngineIdx 1 (by norm_num) "Elementary" (by decide)
